import Mathlib

/-!
Shallow embedding of the review-scoring engine of
`Fake-Product-Review-Monitoring-and-Removal-System` (`model.py`,
class `FakeReviewDetector`), together with theorems settling the
specification claims about it.

Review text is modelled as `List Char` (Python strings are sequences of
code points); ratings and scores are `ℤ`; sentiment polarity and
confidence are `ℚ`.  The external sentiment analyzer (TextBlob) is
abstracted as a parameter `analyzer : List Char → Option ℚ`, where
`none` models the analyzer raising an exception (the code substitutes
polarity `0` in that case, via `try/except`).
-/

namespace FakeReviewDetector

/-- Python `text.lower()` (ASCII case folding suffices for the config data). -/
def pyLower (t : List Char) : List Char := t.map Char.toLower

/-- Python `needle in haystack` on strings: substring occurrence test. -/
def isSubstr (needle : List Char) : List Char → Bool
  | [] => needle.isPrefixOf []
  | c :: rest => needle.isPrefixOf (c :: rest) || isSubstr needle rest

/-- Helper for Python `text.split()`: split at each whitespace character,
keeping empty fragments (filtered out afterwards). -/
def splitWsAux : List Char → List Char → List (List Char)
  | [], acc => [acc.reverse]
  | c :: rest, acc =>
    if c.isWhitespace then acc.reverse :: splitWsAux rest []
    else splitWsAux rest (c :: acc)

/-- Python `text.split()` with no separator: split on whitespace runs,
discarding empty fragments. -/
def pySplit (t : List Char) : List (List Char) :=
  (splitWsAux t []).filter (fun w => w ≠ [])

/-- Python `w.isupper()` restricted to ASCII data: at least one cased
character and no lower-case character. -/
def pyIsUpper (w : List Char) : Bool :=
  w.any (fun c => c.isAlpha) && w.all (fun c => !c.isLower)

/-- The regex `(.)\1{4,}`: some character repeated 5+ times consecutively. -/
def hasRun5 : List Char → Bool
  | c1 :: c2 :: c3 :: c4 :: c5 :: rest =>
    (c1 = c2 && c2 = c3 && c3 = c4 && c4 = c5) || hasRun5 (c2 :: c3 :: c4 :: c5 :: rest)
  | _ => false

/-- Python `round(x)` (banker's rounding: ties to even). -/
def pyRound0 (x : ℚ) : ℤ :=
  let f := ⌊x⌋
  let r := x - f
  if r < 1/2 then f
  else if r > 1/2 then f + 1
  else if f % 2 = 0 then f else f + 1

/-- Python `round(x, 1)`. -/
def pyRound1 (x : ℚ) : ℚ := (pyRound0 (x * 10) : ℚ) / 10

/-- The three evidence lists accumulated by the detectors
(`features` dict in `analyze_review`). -/
structure Features where
  suspicious_patterns : List String
  positive_indicators : List String
  warnings : List String
deriving DecidableEq, Repr

/-- The empty `features` dict `analyze_review` starts from. -/
def Features.empty : Features := ⟨[], [], []⟩

def Features.addSuspicious (f : Features) (msg : String) : Features :=
  { f with suspicious_patterns := f.suspicious_patterns ++ [msg] }

def Features.addPositive (f : Features) (msg : String) : Features :=
  { f with positive_indicators := f.positive_indicators ++ [msg] }

def Features.addWarning (f : Features) (msg : String) : Features :=
  { f with warnings := f.warnings ++ [msg] }

/-- Result dict of `analyze_review`. -/
structure AnalysisResult where
  prediction : String
  confidence : ℚ
  score : ℤ
  features : Features
deriving DecidableEq, Repr

/-- `self.generic_phrases`. -/
def generic_phrases : List (List Char) :=
  ["best product ever".toList, "highly recommend".toList, "amazing product".toList,
   "must buy".toList, "life changing".toList, "perfect".toList, "awesome".toList,
   "excellent".toList, "worst ever".toList, "terrible product".toList,
   "waste of money".toList, "don\x27t buy".toList, "save your money".toList,
   "total scam".toList]

/-- `self.positive_words`. -/
def positive_words : List (List Char) :=
  ["good".toList, "great".toList, "excellent".toList, "love".toList, "best".toList,
   "amazing".toList, "wonderful".toList, "fantastic".toList, "perfect".toList,
   "awesome".toList, "outstanding".toList]

/-- `self.negative_words`. -/
def negative_words : List (List Char) :=
  ["bad".toList, "poor".toList, "terrible".toList, "worst".toList, "hate".toList,
   "disappointed".toList, "awful".toList, "horrible".toList, "useless".toList,
   "waste".toList, "regret".toList]

/-- `self.spam_patterns`, each as (display name after `.replace('\\','')`,
matcher on the lower-cased text).  The regexes are literal except
`http[s]?//`, which matches either scheme; `re.IGNORECASE` search is
modelled by matching on the lower-cased text. -/
def spam_patterns : List (String × (List Char → Bool)) :=
  [("http[s]?://", fun lt => isSubstr "http://".toList lt || isSubstr "https://".toList lt),
   ("www.", fun lt => isSubstr "www.".toList lt),
   (".com", fun lt => isSubstr ".com".toList lt),
   ("click here", fun lt => isSubstr "click here".toList lt),
   ("buy now", fun lt => isSubstr "buy now".toList lt),
   ("limited offer", fun lt => isSubstr "limited offer".toList lt),
   ("discount code", fun lt => isSubstr "discount code".toList lt)]

/-- `_analyze_length`. -/
def analyze_length (text : List Char) (features : Features) : ℤ × Features :=
  let length := text.length
  if length < 20 then (30, features.addSuspicious "Very short review")
  else if length > 100 then (-10, features.addPositive "Detailed review")
  else (0, features)

/-- `_analyze_punctuation`. -/
def analyze_punctuation (text : List Char) (features : Features) : ℤ × Features :=
  let exclamation_count := text.count '!'
  let question_count := text.count '?'
  let r1 :=
    if exclamation_count > 3 then
      ((20 : ℤ), features.addSuspicious
        ("Excessive exclamation marks (" ++ toString exclamation_count ++ ")"))
    else (0, features)
  if question_count > 3 then
    (r1.1 + 10, r1.2.addSuspicious ("Too many questions (" ++ toString question_count ++ ")"))
  else r1

/-- `_analyze_capitalization`. -/
def analyze_capitalization (text : List Char) (features : Features) : ℤ × Features :=
  let words := pySplit text
  let caps_words := words.filter (fun w => pyIsUpper w && w.length > 3)
  if caps_words.length > 2 then
    (15, features.addSuspicious
      ("Excessive capitalization (" ++ toString caps_words.length ++ " words)"))
  else (0, features)

/-- `found_phrases` local of `_detect_generic_phrases`: the generic phrases
occurring in the lower-cased text, in configuration order. -/
def found_phrases (text : List Char) : List (List Char) :=
  generic_phrases.filter (fun phrase => isSubstr phrase (pyLower text))

/-- `_detect_generic_phrases`. -/
def detect_generic_phrases (text : List Char) (features : Features) : ℤ × Features :=
  if (found_phrases text).length > 2 then
    (25, features.addSuspicious
      ("Multiple generic phrases: " ++
        String.mk (List.intercalate ", ".toList ((found_phrases text).take 3))))
  else if (found_phrases text).length > 0 then
    (10, features.addWarning
      ("Generic phrase detected: " ++ String.mk ((found_phrases text).headD [])))
  else (0, features)

/-- `_analyze_sentiment`.  `analyzer text = none` models the TextBlob call
raising; the `try/except` then sets `polarity = 0`. -/
def analyze_sentiment (analyzer : List Char → Option ℚ) (text : List Char)
    (rating : ℤ) (features : Features) : ℤ × Features :=
  let text_lower := pyLower text
  let pos_count := (positive_words.filter (fun w => isSubstr w text_lower)).length
  let neg_count := (negative_words.filter (fun w => isSubstr w text_lower)).length
  let polarity := (analyzer text).getD 0
  if rating ≥ 4 ∧ (neg_count > pos_count ∨ polarity < -1/5) then
    (35, features.addSuspicious "Rating-content mismatch (high rating, negative content)")
  else if rating ≤ 2 ∧ (pos_count > neg_count ∨ polarity > 1/5) then
    (35, features.addSuspicious "Rating-content mismatch (low rating, positive content)")
  else (0, features.addPositive "Rating matches sentiment")

/-- `_detect_spam_patterns`. -/
def detect_spam_patterns (text : List Char) (features : Features) : ℤ × Features :=
  let lt := pyLower text
  let found_patterns := (spam_patterns.filter (fun p => p.2 lt)).map (fun p => p.1)
  if found_patterns ≠ [] then
    (40, features.addSuspicious
      ("Contains promotional content: " ++ String.intercalate ", " (found_patterns.take 2)))
  else (0, features)

/-- `_detect_repeated_chars`. -/
def detect_repeated_chars (text : List Char) (features : Features) : ℤ × Features :=
  if hasRun5 text then (20, features.addSuspicious "Repeated characters detected")
  else (0, features)

/-- `_analyze_word_diversity`. -/
def analyze_word_diversity (text : List Char) (features : Features) : ℤ × Features :=
  let words := pySplit (pyLower text)
  if words.length < 5 then (0, features)
  else
    let unique_words := words.dedup.length
    let total_words := words.length
    let ratio : ℚ := (unique_words : ℚ) / (total_words : ℚ)
    if ratio < 1/2 ∧ total_words > 20 then
      (15, features.addSuspicious "Low vocabulary diversity")
    else if ratio > 4/5 then (0, features.addPositive "High vocabulary diversity")
    else (0, features)

/-- `_calculate_prediction`. -/
def calculate_prediction (score : ℤ) : String × ℚ :=
  let pc : String × ℚ :=
    if score ≥ 60 then ("fake", min 95 (60 + (score : ℚ) / 2))
    else if score ≥ 30 then ("suspicious", 50 + (score : ℚ) / 2)
    else ("genuine", 100 - (score : ℚ) * 2)
  (pc.1, max 50 (min 99 pc.2))

/-- `analyze_review`.  `rN` is the (score contribution, updated features)
pair returned by the N-th detector. -/
def analyze_review (analyzer : List Char → Option ℚ) (review_text : List Char)
    (rating : ℤ) : AnalysisResult :=
  let r1 := analyze_length review_text Features.empty
  let r2 := analyze_punctuation review_text r1.2
  let r3 := analyze_capitalization review_text r2.2
  let r4 := detect_generic_phrases review_text r3.2
  let r5 := analyze_sentiment analyzer review_text rating r4.2
  let r6 := detect_spam_patterns review_text r5.2
  let r7 := detect_repeated_chars review_text r6.2
  let r8 := analyze_word_diversity review_text r7.2
  let score := r1.1 + r2.1 + r3.1 + r4.1 + r5.1 + r6.1 + r7.1 + r8.1
  let pc := calculate_prediction score
  ⟨pc.1, pyRound1 pc.2, score, r8.2⟩

/-- The review text of the end-to-end example in the spec and in the
`__main__` block of `model.py`. -/
def exText5 : List Char :=
  "This is the best product ever! I love it! Highly recommend to everyone!!!".toList

/-- `analyze_review` consults the analyzer only through `_analyze_sentiment`:
two analyzers indistinguishable there give identical results. -/
theorem analyze_review_congr (a b : List Char → Option ℚ) (t : List Char) (r : ℤ)
    (hs : ∀ f, analyze_sentiment a t r f = analyze_sentiment b t r f) :
    analyze_review a t r = analyze_review b t r := by
  simp only [analyze_review, hs]

/-- With `rating = 3` neither mismatch branch of `_analyze_sentiment` can
fire, whatever the text and the analyzer. -/
theorem analyze_sentiment_rating3 (a : List Char → Option ℚ) (t : List Char)
    (f : Features) :
    analyze_sentiment a t 3 f = (0, f.addPositive "Rating matches sentiment") := by
  simp only [analyze_sentiment]
  split_ifs with h1 h2
  · exact absurd h1.1 (by decide)
  · exact absurd h2.1 (by decide)
  · rfl

/-- On the example text (no negative lexicon hits, two positive ones), the
high-rating mismatch branch fires only when the analyzer reports polarity
below `-0.2`. -/
theorem analyze_sentiment_exText5 (a : List Char → Option ℚ)
    (h : -1/5 ≤ (a exText5).getD 0) (f : Features) :
    analyze_sentiment a exText5 5 f = (0, f.addPositive "Rating matches sentiment") := by
  simp only [analyze_sentiment]
  split_ifs with h1 h2
  · rcases h1 with ⟨-, hor | hp⟩
    · exact absurd hor (by decide)
    · exact absurd hp (not_lt.mpr h)
  · exact absurd h2.1 (by decide)
  · rfl

/-- C1: the classifier maps `score ≥ 60` to `fake` with confidence
`min(95, 60 + score/2)`, `30 ≤ score < 60` to `suspicious` with confidence
`50 + score/2`, and `score < 30` to `genuine` with confidence
`100 - score*2`, the confidence then clamped to `[50, 99]`; in particular
59 → suspicious, 60 → fake, 29 → genuine, 30 → suspicious. -/
theorem claim_C1 :
    (∀ score : ℤ,
      calculate_prediction score =
        (if score ≥ 60 then "fake" else if score ≥ 30 then "suspicious" else "genuine",
         max 50 (min 99
           (if score ≥ 60 then min 95 (60 + (score : ℚ) / 2)
            else if score ≥ 30 then 50 + (score : ℚ) / 2
            else 100 - (score : ℚ) * 2)))) ∧
    (calculate_prediction 59).1 = "suspicious" ∧
    (calculate_prediction 60).1 = "fake" ∧
    (calculate_prediction 29).1 = "genuine" ∧
    (calculate_prediction 30).1 = "suspicious" := by
  refine ⟨fun s => ?_, by decide, by decide, by decide, by decide⟩
  by_cases h1 : s ≥ 60 <;> by_cases h2 : s ≥ 30 <;>
    simp [calculate_prediction, h1, h2]

/-- C2: for every integer score the classifier's confidence lies in
`[50, 99]`. -/
theorem claim_C2 (score : ℤ) :
    50 ≤ (calculate_prediction score).2 ∧ (calculate_prediction score).2 ≤ 99 :=
  ⟨le_max_left _ _, max_le (by norm_num) (min_le_left _ _)⟩

/-- C3 counterexample: the claim that out-of-range ratings never trigger the
mismatch branches is false: text `"bad"` with rating `6` (outside 1–5)
makes the sentiment step contribute 35 and emit mismatch evidence. -/
theorem claim_C3_counterexample :
    ¬ (∀ (analyzer : List Char → Option ℚ) (text : List Char) (rating : ℤ),
        rating < 1 ∨ rating > 5 →
        (analyze_sentiment analyzer text rating Features.empty).1 = 0) := by
  intro h
  exact absurd (h (fun _ => some 0) "bad".toList 6 (Or.inr (by norm_num))) (by decide)

/-- C3 amended: an out-of-range rating is handled by the nearest in-range
extreme: for `rating > 5` the sentiment step behaves exactly as for
rating 5 (the high-rating mismatch branch can trigger), and for
`rating < 1` exactly as for rating 1 (the low-rating branch can trigger). -/
theorem claim_C3 (analyzer : List Char → Option ℚ) (text : List Char)
    (rating : ℤ) (f : Features) :
    (rating > 5 →
      analyze_sentiment analyzer text rating f = analyze_sentiment analyzer text 5 f) ∧
    (rating < 1 →
      analyze_sentiment analyzer text rating f = analyze_sentiment analyzer text 1 f) := by
  constructor <;> intro h <;> simp only [analyze_sentiment]
  · simp [eq_true (show rating ≥ 4 by omega), eq_true (show (5 : ℤ) ≥ 4 by norm_num),
      eq_false (show ¬rating ≤ 2 by omega), eq_false (show ¬(5 : ℤ) ≤ 2 by norm_num)]
  · simp [eq_false (show ¬rating ≥ 4 by omega), eq_false (show ¬(1 : ℤ) ≥ 4 by norm_num),
      eq_true (show rating ≤ 2 by omega), eq_true (show (1 : ℤ) ≤ 2 by norm_num)]

/-- C3 witness: concrete out-of-range ratings 6 and 0 behave as ratings 5
and 1 respectively. -/
theorem claim_C3_witness :
    analyze_sentiment (fun _ => some 0) "bad".toList 6 Features.empty
      = analyze_sentiment (fun _ => some 0) "bad".toList 5 Features.empty ∧
    analyze_sentiment (fun _ => some 0) "great".toList 0 Features.empty
      = analyze_sentiment (fun _ => some 0) "great".toList 1 Features.empty :=
  ⟨(claim_C3 (fun _ => some 0) "bad".toList 6 Features.empty).1 (by norm_num),
   (claim_C3 (fun _ => some 0) "great".toList 0 Features.empty).2 (by norm_num)⟩

/-- C4: texts shorter than 20 characters get +30 and "Very short review";
texts longer than 100 characters get -10 and "Detailed review"; lengths in
`[20, 100]` contribute 0. -/
theorem claim_C4 (text : List Char) (f : Features) :
    (text.length < 20 →
      analyze_length text f = (30, f.addSuspicious "Very short review")) ∧
    (text.length > 100 →
      analyze_length text f = (-10, f.addPositive "Detailed review")) ∧
    (20 ≤ text.length ∧ text.length ≤ 100 → analyze_length text f = (0, f)) := by
  unfold analyze_length
  refine ⟨fun h => ?_, fun h => ?_, fun h => ?_⟩
  · rw [if_pos h]
  · rw [if_neg (by omega), if_pos h]
  · rw [if_neg (by omega), if_neg (by omega)]

/-- C4 witness: the three length regimes at concrete texts of lengths 2,
101 and 50. -/
theorem claim_C4_witness :
    analyze_length "ok".toList Features.empty
      = (30, Features.empty.addSuspicious "Very short review") ∧
    analyze_length (List.replicate 101 'x') Features.empty
      = (-10, Features.empty.addPositive "Detailed review") ∧
    analyze_length (List.replicate 50 'x') Features.empty = (0, Features.empty) :=
  ⟨(claim_C4 "ok".toList Features.empty).1 (by decide),
   (claim_C4 (List.replicate 101 'x') Features.empty).2.1 (by decide),
   (claim_C4 (List.replicate 50 'x') Features.empty).2.2 (by decide)⟩

/-- On the example text, an analyzer reporting polarity below `-0.2` makes
the high-rating mismatch branch fire. -/
theorem analyze_sentiment_exText5_neg (a : List Char → Option ℚ)
    (h : (a exText5).getD 0 < -1/5) (f : Features) :
    analyze_sentiment a exText5 5 f
      = (35, f.addSuspicious "Rating-content mismatch (high rating, negative content)") := by
  simp only [analyze_sentiment]
  split_ifs with h1 h2
  · rfl
  · exact absurd ⟨by norm_num, Or.inr h⟩ h1
  · exact absurd ⟨by norm_num, Or.inr h⟩ h1

/-- `_analyze_word_diversity` with the unique/total word counts abstracted,
for evaluation at concrete texts. -/
theorem analyze_word_diversity_spec (t : List Char) (f : Features) (u n : ℕ)
    (hu : (pySplit (pyLower t)).dedup.length = u)
    (hn : (pySplit (pyLower t)).length = n) :
    analyze_word_diversity t f =
      if n < 5 then (0, f)
      else if (u : ℚ) / (n : ℚ) < 1/2 ∧ n > 20 then
        (15, f.addSuspicious "Low vocabulary diversity")
      else if (u : ℚ) / (n : ℚ) > 4/5 then (0, f.addPositive "High vocabulary diversity")
      else (0, f) := by
  subst hu hn; rfl

/-- On the example text all 13 words are distinct, so the diversity
detector contributes 0 and emits "High vocabulary diversity". -/
theorem analyze_word_diversity_exText5 (f : Features) :
    analyze_word_diversity exText5 f = (0, f.addPositive "High vocabulary diversity") := by
  rw [analyze_word_diversity_spec exText5 f 13 13 (by decide) (by decide)]
  norm_num

/-- C5 counterexample: on the example text with rating 5 and the sentiment
analyzer reporting positive polarity 1/2 (TextBlob reports positive
polarity on this overtly positive text), `analyze_review` does not return
prediction `fake` with confidence in `[80, 95]`: punctuation contributes
20 and the two generic phrases only 10, the aligned sentiment contributes
0, so the score is 30 and the prediction is `suspicious`. -/
theorem claim_C5_counterexample :
    ¬ ((analyze_review (fun _ => some (1/2)) exText5 5).prediction = "fake" ∧
       80 ≤ (analyze_review (fun _ => some (1/2)) exText5 5).confidence ∧
       (analyze_review (fun _ => some (1/2)) exText5 5).confidence ≤ 95) := by
  rintro ⟨hpred, -, -⟩
  revert hpred
  simp only [analyze_review]
  rw [analyze_sentiment_exText5 (fun _ => some (1/2)) (by norm_num),
    analyze_word_diversity_exText5]
  decide

/-- C5 amended: on the example text with rating 5, whenever the sentiment
analyzer reports polarity at least `-0.2` (as any reasonable analyzer does
on this positive text), `analyze_review` returns prediction `suspicious`
with score 30 and confidence 65; a reported polarity below `-0.2` would
instead give `fake` with score 65 and confidence 92.5. -/
theorem claim_C5 (analyzer : List Char → Option ℚ) :
    (-1/5 ≤ (analyzer exText5).getD 0 →
      (analyze_review analyzer exText5 5).prediction = "suspicious" ∧
      (analyze_review analyzer exText5 5).score = 30 ∧
      (analyze_review analyzer exText5 5).confidence = 65) ∧
    ((analyzer exText5).getD 0 < -1/5 →
      (analyze_review analyzer exText5 5).prediction = "fake" ∧
      (analyze_review analyzer exText5 5).score = 65 ∧
      (analyze_review analyzer exText5 5).confidence = 185/2) := by
  constructor <;> intro h
  · simp only [analyze_review]
    rw [analyze_sentiment_exText5 analyzer h, analyze_word_diversity_exText5]
    have key : ∀ s : ℤ, s = 30 →
        (calculate_prediction s).1 = "suspicious" ∧ s = 30 ∧
          pyRound1 (calculate_prediction s).2 = 65 := by
      rintro s rfl
      exact ⟨by decide, rfl, by norm_num [calculate_prediction, pyRound1, pyRound0]⟩
    exact key _ (by decide)
  · simp only [analyze_review]
    rw [analyze_sentiment_exText5_neg analyzer h, analyze_word_diversity_exText5]
    have key : ∀ s : ℤ, s = 65 →
        (calculate_prediction s).1 = "fake" ∧ s = 65 ∧
          pyRound1 (calculate_prediction s).2 = 185/2 := by
      rintro s rfl
      exact ⟨by decide, rfl, by norm_num [calculate_prediction, pyRound1, pyRound0]⟩
    exact key _ (by decide)

/-- C5 witness: both polarity regimes of the amended claim at concrete
analyzers (constant polarity 1/2 and constant polarity -1). -/
theorem claim_C5_witness :
    ((analyze_review (fun _ => some (2/4)) exText5 5).prediction = "suspicious" ∧
     (analyze_review (fun _ => some (2/4)) exText5 5).score = 30 ∧
     (analyze_review (fun _ => some (2/4)) exText5 5).confidence = 65) ∧
    ((analyze_review (fun _ => some (-1)) exText5 5).prediction = "fake" ∧
     (analyze_review (fun _ => some (-1)) exText5 5).score = 65 ∧
     (analyze_review (fun _ => some (-1)) exText5 5).confidence = 185/2) :=
  ⟨(claim_C5 (fun _ => some (2/4))).1 (by norm_num),
   (claim_C5 (fun _ => some (-1))).2 (by norm_num)⟩

/-- C6: on text `"ok"` with rating 3 only the short-review penalty fires:
the final score is exactly 30 and the prediction is `suspicious`, whatever
the sentiment analyzer reports. -/
theorem claim_C6 (analyzer : List Char → Option ℚ) :
    (analyze_review analyzer "ok".toList 3).score = 30 ∧
    (analyze_review analyzer "ok".toList 3).prediction = "suspicious" := by
  simp only [analyze_review]
  rw [analyze_sentiment_rating3 analyzer "ok".toList]
  have key : ∀ s : ℤ, s = 30 →
      s = 30 ∧ (calculate_prediction s).1 = "suspicious" := by
    rintro s rfl
    exact ⟨rfl, by decide⟩
  exact key _ (by decide)

/-- C7: with `n` the number of generic phrases occurring (case-insensitively,
as substrings) in the text, the detector contributes +25 naming the first
three matches if `n > 2`, +10 naming the first match if `1 ≤ n ≤ 2`, and 0
if `n = 0`. -/
theorem claim_C7 (text : List Char) (f : Features) :
    ((found_phrases text).length > 2 →
      detect_generic_phrases text f = (25, f.addSuspicious
        ("Multiple generic phrases: " ++
          String.mk (List.intercalate ", ".toList ((found_phrases text).take 3))))) ∧
    (1 ≤ (found_phrases text).length ∧ (found_phrases text).length ≤ 2 →
      detect_generic_phrases text f = (10, f.addWarning
        ("Generic phrase detected: " ++ String.mk ((found_phrases text).headD [])))) ∧
    ((found_phrases text).length = 0 → detect_generic_phrases text f = (0, f)) := by
  unfold detect_generic_phrases
  refine ⟨fun h => ?_, fun h => ?_, fun h => ?_⟩
  · rw [if_pos h]
  · rw [if_neg (by omega), if_pos (by omega)]
  · rw [if_neg (by omega), if_neg (by omega)]

/-- C7 witness: concrete texts with 3, 1 and 0 generic-phrase matches. -/
theorem claim_C7_witness :
    (detect_generic_phrases "best product ever highly recommend amazing product".toList
      Features.empty).1 = 25 ∧
    (detect_generic_phrases "perfect".toList Features.empty).1 = 10 ∧
    (detect_generic_phrases "ok".toList Features.empty).1 = 0 :=
  ⟨by rw [(claim_C7 "best product ever highly recommend amazing product".toList
      Features.empty).1 (by decide)],
   by rw [(claim_C7 "perfect".toList Features.empty).2.1 (by decide)],
   by rw [(claim_C7 "ok".toList Features.empty).2.2 (by decide)]⟩

/-- C8: if the sentiment analyzer fails on the given text (`none`, modelling
the TextBlob call raising), the sentiment step behaves exactly as with a
reported polarity of 0, and `analyze_review` still returns the same normal
result, with no error propagated (the embedding is total). -/
theorem claim_C8 (analyzer : List Char → Option ℚ) (text : List Char)
    (rating : ℤ) (f : Features) (h : analyzer text = none) :
    analyze_sentiment analyzer text rating f
      = analyze_sentiment (fun _ => some 0) text rating f ∧
    analyze_review analyzer text rating
      = analyze_review (fun _ => some 0) text rating := by
  have hs : ∀ g, analyze_sentiment analyzer text rating g
      = analyze_sentiment (fun _ => some 0) text rating g := by
    intro g
    simp only [analyze_sentiment, h, Option.getD_none, Option.getD_some]
  exact ⟨hs f, analyze_review_congr analyzer (fun _ => some 0) text rating hs⟩

/-- C8 witness: a failing analyzer on `"ok"` with rating 3 is treated as
polarity 0. -/
theorem claim_C8_witness :
    analyze_sentiment (fun _ => none) "ok".toList 3 Features.empty
      = analyze_sentiment (fun _ => some 0) "ok".toList 3 Features.empty ∧
    analyze_review (fun _ => none) "ok".toList 3
      = analyze_review (fun _ => some 0) "ok".toList 3 :=
  claim_C8 (fun _ => none) "ok".toList 3 Features.empty rfl

/-- C9: `analyze_review` is a pure function of the text, the rating and the
static configuration: identical inputs give identical outputs. -/
theorem claim_C9 (analyzer : List Char → Option ℚ) (t1 t2 : List Char)
    (r1 r2 : ℤ) (h1 : t1 = t2) (h2 : r1 = r2) :
    analyze_review analyzer t1 r1 = analyze_review analyzer t2 r2 := by
  rw [h1, h2]

/-- C9 witness: two calls on the identical concrete input coincide. -/
theorem claim_C9_witness :
    analyze_review (fun _ => some 0) "ok".toList 3
      = analyze_review (fun _ => some 0) "ok".toList 3 :=
  claim_C9 (fun _ => some 0) "ok".toList "ok".toList 3 3 rfl rfl

/-- The length detector contributes 30, -10 or 0. -/
theorem analyze_length_cases (t : List Char) (f : Features) :
    (analyze_length t f).1 = 30 ∨ (analyze_length t f).1 = -10 ∨
      (analyze_length t f).1 = 0 := by
  simp only [analyze_length]; split_ifs <;> simp

/-- The punctuation detector contributes 0, 10, 20 or 30. -/
theorem analyze_punctuation_cases (t : List Char) (f : Features) :
    (analyze_punctuation t f).1 = 0 ∨ (analyze_punctuation t f).1 = 10 ∨
      (analyze_punctuation t f).1 = 20 ∨ (analyze_punctuation t f).1 = 30 := by
  simp only [analyze_punctuation]; split_ifs <;> simp

/-- The capitalization detector contributes 15 or 0. -/
theorem analyze_capitalization_cases (t : List Char) (f : Features) :
    (analyze_capitalization t f).1 = 15 ∨ (analyze_capitalization t f).1 = 0 := by
  simp only [analyze_capitalization]; split_ifs <;> simp

/-- The generic-phrase detector contributes 25, 10 or 0. -/
theorem detect_generic_phrases_cases (t : List Char) (f : Features) :
    (detect_generic_phrases t f).1 = 25 ∨ (detect_generic_phrases t f).1 = 10 ∨
      (detect_generic_phrases t f).1 = 0 := by
  simp only [detect_generic_phrases]; split_ifs <;> simp

/-- The sentiment step contributes 35 or 0. -/
theorem analyze_sentiment_cases (a : List Char → Option ℚ) (t : List Char)
    (r : ℤ) (f : Features) :
    (analyze_sentiment a t r f).1 = 35 ∨ (analyze_sentiment a t r f).1 = 0 := by
  simp only [analyze_sentiment]; split_ifs <;> simp

/-- The spam detector contributes 40 or 0. -/
theorem detect_spam_patterns_cases (t : List Char) (f : Features) :
    (detect_spam_patterns t f).1 = 40 ∨ (detect_spam_patterns t f).1 = 0 := by
  simp only [detect_spam_patterns]; split_ifs <;> simp

/-- The repeated-character detector contributes 20 or 0. -/
theorem detect_repeated_chars_cases (t : List Char) (f : Features) :
    (detect_repeated_chars t f).1 = 20 ∨ (detect_repeated_chars t f).1 = 0 := by
  simp only [detect_repeated_chars]; split_ifs <;> simp

/-- The diversity detector contributes 15 or 0. -/
theorem analyze_word_diversity_cases (t : List Char) (f : Features) :
    (analyze_word_diversity t f).1 = 15 ∨ (analyze_word_diversity t f).1 = 0 := by
  simp only [analyze_word_diversity]; split_ifs <;> simp

/-- C10: for every analyzer, text and rating the final score of
`analyze_review` lies within `[-10, 210]`, each detector's contribution
being bounded (length in {-10,0,30}, punctuation in {0,10,20,30},
capitalization in {0,15}, generic phrases in {0,10,25}, sentiment in
{0,35}, spam in {0,40}, repeated characters in {0,20}, diversity in
{0,15}). -/
theorem claim_C10 (analyzer : List Char → Option ℚ) (text : List Char)
    (rating : ℤ) :
    -10 ≤ (analyze_review analyzer text rating).score ∧
      (analyze_review analyzer text rating).score ≤ 210 := by
  simp only [analyze_review]
  have key : ∀ a b c d e p q u : ℤ,
      (a = 30 ∨ a = -10 ∨ a = 0) → (b = 0 ∨ b = 10 ∨ b = 20 ∨ b = 30) →
      (c = 15 ∨ c = 0) → (d = 25 ∨ d = 10 ∨ d = 0) → (e = 35 ∨ e = 0) →
      (p = 40 ∨ p = 0) → (q = 20 ∨ q = 0) → (u = 15 ∨ u = 0) →
      -10 ≤ a + b + c + d + e + p + q + u ∧ a + b + c + d + e + p + q + u ≤ 210 := by
    intros; omega
  refine key _ _ _ _ _ _ _ _ ?_ ?_ ?_ ?_ ?_ ?_ ?_ ?_
  · exact analyze_length_cases _ _
  · exact analyze_punctuation_cases _ _
  · exact analyze_capitalization_cases _ _
  · exact detect_generic_phrases_cases _ _
  · exact analyze_sentiment_cases _ _ _ _
  · exact detect_spam_patterns_cases _ _
  · exact detect_repeated_chars_cases _ _
  · exact analyze_word_diversity_cases _ _

end FakeReviewDetector
